import Mathlib

/-!
Shallow embedding of the deterministic judge core of the `tempo-mcp` eval
harness (`src/evals/scoring.py` and `src/evals/harness.py`), together with
theorems settling the specification claims about it.

Modelling conventions:
* Python `float` arithmetic is modelled over `ℚ`; `round(x, 1)` is modelled
  as exact round-half-to-even at one decimal place.
* Python `datetime` objects are modelled by `PyDateTime`: an epoch-second
  count (absolute UTC seconds for timezone-aware values, wall-clock seconds
  for naive values), a UTC-offset and an awareness flag.  Order comparisons
  between naive and aware datetimes raise `TypeError` in Python and are
  modelled in the `Except String` monad; `==` between them is `False`.
* Fallible Python code is embedded in `Except String`; an uncaught Python
  exception is an `.error` value.
* `random.Random(seed)` (the CPython Mersenne-Twister library object) is
  modelled as an oracle stream of method-level draws: each `randint`,
  `random` and `choice` call consumes one element of the stream.  A seed
  determines the stream (a guarantee of the CPython library, which is not
  part of this repository), so universal quantification over seeds becomes
  quantification over streams, and a concrete seed is represented by the
  concrete draw prefix that CPython's `random.Random` produces for it.
* `dateutil.rrule.rrulestr(...)` / `.between(...)` (an external library) is
  modelled as an oracle `RRuleOracle`; `none` models a raised exception,
  `some occs` the list of naive occurrence starts returned by `between`.
-/

deriving instance DecidableEq for Except

namespace Tempo

/-! ### Small string / integer helpers -/

/-- Python floor division `a // b`. -/
def pyDiv (a b : Int) : Int := Int.fdiv a b

/-- Python modulo `a % b` (sign follows the divisor). -/
def pyMod (a b : Int) : Int := a - b * Int.fdiv a b

/-- `needle` occurs as a prefix of `hay` (on character lists). -/
def charsHavePre : List Char → List Char → Bool
  | [], _ => true
  | _ :: _, [] => false
  | a :: as, b :: bs => a == b && charsHavePre as bs

/-- `needle` occurs as a contiguous substring of `hay` (on character lists).
Models Python's `needle in hay`. -/
def charsHaveSub (needle : List Char) : List Char → Bool
  | [] => charsHavePre needle []
  | b :: bs => charsHavePre needle (b :: bs) || charsHaveSub needle bs

/-- Python `needle in hay` for strings. -/
def strHasSub (hay needle : String) : Bool := charsHaveSub needle.data hay.data

/-- Drop the first `n` characters of a string. -/
def strDrop (s : String) (n : Nat) : String := String.mk (s.data.drop n)

/-- The string is empty. -/
def strIsEmpty (s : String) : Bool := s.data.isEmpty

/-- `s` starts with `pre`. -/
def strStarts (s pre : String) : Bool := charsHavePre pre.data s.data

/-- `s` ends with `suf`. -/
def strEnds (s suf : String) : Bool := charsHavePre suf.data.reverse s.data.reverse

/-- Python `str.strip()` (strip leading and trailing whitespace). -/
def strStrip (s : String) : String :=
  String.mk (((s.data.dropWhile Char.isWhitespace).reverse.dropWhile Char.isWhitespace).reverse)

/-- Split a character list at every occurrence of `c`. -/
def splitCharsOn (c : Char) : List Char → List (List Char)
  | [] => [[]]
  | a :: rest =>
    let r := splitCharsOn c rest
    if a == c then [] :: r
    else match r with
      | [] => [[a]]
      | g :: gs => (a :: g) :: gs

/-- Split a string at every occurrence of the character `c`
(models Python `s.split(c)` for a one-character separator). -/
def strSplitChar (c : Char) (s : String) : List String :=
  (splitCharsOn c s.data).map String.mk

/-- Split at the first occurrence of `c`: models Python
`s.partition(c)` / `s.split(c, 1)`, returning the part before and the part
after (the pair `(s, "")` when `c` does not occur). -/
def strSplitFirst (c : Char) (s : String) : String × String :=
  let pre := s.data.takeWhile (fun a => a ≠ c)
  match s.data.dropWhile (fun a => a ≠ c) with
  | [] => (String.mk pre, "")
  | _ :: tail => (String.mk pre, String.mk tail)

/-- Normalize line endings: models Python `s.replace("\r\n", "\n")`. -/
def replCRLF : List Char → List Char
  | [] => []
  | '\r' :: '\n' :: rest => '\n' :: replCRLF rest
  | a :: rest => a :: replCRLF rest

/-- `s.replace("\r\n", "\n").split("\n")`. -/
def toLines (s : String) : List String :=
  (splitCharsOn '\n' (replCRLF s.data)).map String.mk

/-- Decimal rendering of a natural number left-padded with zeros to width `w`. -/
def padNat (w : Nat) (n : Nat) : String :=
  let s := toString n
  let pad := w - s.length
  String.mk (List.replicate pad '0') ++ s

/-- Decimal digits of a string, if it consists only of digits (and is nonempty). -/
def digitsToNat? (cs : List Char) : Option Nat :=
  if cs.isEmpty then none
  else cs.foldl (fun acc c => match acc with
    | none => none
    | some n => if c.isDigit then some (n * 10 + (c.toNat - 48)) else none) (some 0)

/-- Parse a fixed-width all-digit substring. -/
def natField? (s : String) (start len : Nat) : Option Nat :=
  digitsToNat? ((s.data.drop start).take len)

/-- Insertion of a string into a lexicographically sorted list. -/
def insertSorted (x : String) : List String → List String
  | [] => [x]
  | y :: ys => if x ≤ y then x :: y :: ys else y :: insertSorted x ys

/-- Lexicographic insertion sort; models Python `sorted` on a set of strings. -/
def sortStrings : List String → List String
  | [] => []
  | x :: xs => insertSorted x (sortStrings xs)

/-- Append a string to a list if it is not already present
(models adding to a Python `set`, keeping insertion order). -/
def addToSet (x : String) (xs : List String) : List String :=
  if xs.contains x then xs else xs ++ [x]

/-! ### Civil-calendar arithmetic (Howard Hinnant's algorithms) -/

/-- Days since 1970-01-01 of the civil date `y-m-d`. -/
def daysFromCivil (y m d : Int) : Int :=
  let y' := if m ≤ 2 then y - 1 else y
  let era := Int.fdiv y' 400
  let yoe := y' - era * 400
  let mp := pyMod (m + 9) 12
  let doy := Int.fdiv (153 * mp + 2) 5 + d - 1
  let doe := yoe * 365 + Int.fdiv yoe 4 - Int.fdiv yoe 100 + doy
  era * 146097 + doe - 719468

/-- Civil date `(y, m, d)` of a count of days since 1970-01-01. -/
def civilFromDays (z0 : Int) : Int × Int × Int :=
  let z := z0 + 719468
  let era := Int.fdiv z 146097
  let doe := z - era * 146097
  let yoe := Int.fdiv (doe - Int.fdiv doe 1460 + Int.fdiv doe 36524 - Int.fdiv doe 146096) 365
  let y := yoe + era * 400
  let doy := doe - (365 * yoe + Int.fdiv yoe 4 - Int.fdiv yoe 100)
  let mp := Int.fdiv (5 * doy + 2) 153
  let d := doy - Int.fdiv (153 * mp + 2) 5 + 1
  let m := mp + (if mp < 10 then 3 else -9)
  (if m ≤ 2 then y + 1 else y, m, d)

/-- Number of days in a month of the proleptic Gregorian calendar. -/
def daysInMonth (y m : Int) : Int :=
  if m = 2 then
    if pyMod y 4 = 0 ∧ (pyMod y 100 ≠ 0 ∨ pyMod y 400 = 0) then 29 else 28
  else if m = 4 ∨ m = 6 ∨ m = 9 ∨ m = 11 then 30
  else 31

/-! ### The `PyDateTime` model -/

/-- Model of a Python `datetime`.  For `aware = true`, `secs` counts absolute
UTC epoch seconds and `offset` is the `utcoffset` in seconds; for
`aware = false`, `secs` counts wall-clock epoch seconds and `offset = 0`. -/
structure PyDateTime where
  secs : Int
  offset : Int
  aware : Bool
deriving DecidableEq, Repr

namespace PyDateTime

/-- Wall-clock epoch seconds (what `%H`, `%M`, `.hour`, `.date()` read). -/
def localSecs (d : PyDateTime) : Int := d.secs + d.offset

/-- Python `datetime.hour`. -/
def hour (d : PyDateTime) : Int := pyDiv (pyMod d.localSecs 86400) 3600

/-- Python `datetime.minute`. -/
def minute (d : PyDateTime) : Int := pyDiv (pyMod d.localSecs 3600) 60

/-- Python `datetime.second`. -/
def second (d : PyDateTime) : Int := pyMod d.localSecs 60

/-- Days since epoch of the wall-clock date. -/
def localDays (d : PyDateTime) : Int := Int.fdiv d.localSecs 86400

/-- Python `datetime.__eq__`: mixed naive/aware compare unequal, otherwise
instants (respectively wall clocks) are compared. -/
def eqPy (a b : PyDateTime) : Bool := a.aware == b.aware && a.secs == b.secs

/-- Python `a < b`; raises `TypeError` on mixed naive/aware operands. -/
def ltE (a b : PyDateTime) : Except String Bool :=
  if a.aware == b.aware then .ok (a.secs < b.secs)
  else .error "TypeError: can't compare offset-naive and offset-aware datetimes"

/-- Python `a <= b`; raises `TypeError` on mixed naive/aware operands. -/
def leE (a b : PyDateTime) : Except String Bool :=
  if a.aware == b.aware then .ok (a.secs ≤ b.secs)
  else .error "TypeError: can't compare offset-naive and offset-aware datetimes"

/-- Python `a - b` in seconds (a `timedelta`); raises `TypeError` on mixed
naive/aware operands. -/
def subE (a b : PyDateTime) : Except String Int :=
  if a.aware == b.aware then .ok (a.secs - b.secs)
  else .error "TypeError: can't subtract offset-naive and offset-aware datetimes"

/-- Python `.replace(tzinfo=None)`: keep the wall clock, drop awareness. -/
def stripTz (d : PyDateTime) : PyDateTime := ⟨d.localSecs, 0, false⟩

/-- Python `.strftime("%Y-%m-%d")` of the wall-clock date. -/
def dateKey (d : PyDateTime) : String :=
  let (y, m, dd) := civilFromDays d.localDays
  padNat 4 y.toNat ++ "-" ++ padNat 2 m.toNat ++ "-" ++ padNat 2 dd.toNat

/-- Python `.strftime("%H:%M")`. -/
def hhmm (d : PyDateTime) : String :=
  padNat 2 d.hour.toNat ++ ":" ++ padNat 2 d.minute.toNat

/-- Python `.strftime("%a")` (abbreviated weekday; epoch day 0 is a Thursday). -/
def weekdayAbbrev (d : PyDateTime) : String :=
  match (pyMod (d.localDays + 4) 7).toNat with
  | 0 => "Sun" | 1 => "Mon" | 2 => "Tue" | 3 => "Wed"
  | 4 => "Thu" | 5 => "Fri" | _ => "Sat"

/-- Python `.strftime("%a %H:%M")`. -/
def aHHMM (d : PyDateTime) : String := d.weekdayAbbrev ++ " " ++ d.hhmm

/-- Python `.strftime("%Y%m%dT%H%M%S")` (basic iCal format). -/
def strftimeBasic (d : PyDateTime) : String :=
  let (y, m, dd) := civilFromDays d.localDays
  padNat 4 y.toNat ++ padNat 2 m.toNat ++ padNat 2 dd.toNat ++ "T" ++
    padNat 2 d.hour.toNat ++ padNat 2 d.minute.toNat ++ padNat 2 d.second.toNat

end PyDateTime

/-- Seconds since epoch of a validated civil date-time; `none` on a field out
of range (models `ValueError`). -/
def mkSecs? (y m d hh mm ss : Nat) : Option Int :=
  if 1 ≤ m ∧ m ≤ 12 ∧ 1 ≤ d ∧ (d : Int) ≤ daysInMonth y m ∧ hh ≤ 23 ∧ mm ≤ 59 ∧ ss ≤ 59 then
    some (daysFromCivil y m d * 86400 + hh * 3600 + mm * 60 + ss)
  else none

/-- Parse the date part of an ISO string: `YYYY-MM-DD` or `YYYYMMDD`.
Returns `(y, m, d, length consumed)`. -/
def parseDatePart? (s : String) : Option (Nat × Nat × Nat × Nat) :=
  if s.length ≥ 10 ∧ (s.data.get? 4 = some '-') ∧ (s.data.get? 7 = some '-') then
    match natField? s 0 4, natField? s 5 2, natField? s 8 2 with
    | some y, some m, some d => some (y, m, d, 10)
    | _, _, _ => none
  else
    match natField? s 0 4, natField? s 4 2, natField? s 6 2 with
    | some y, some m, some d => if s.length ≥ 8 then some (y, m, d, 8) else none
    | _, _, _ => none

/-- Parse the time part of an ISO string: `HH:MM:SS`, `HH:MM` or `HHMMSS`.
Returns `(hh, mm, ss, length consumed)`. -/
def parseTimePart? (s : String) : Option (Nat × Nat × Nat × Nat) :=
  if s.data.get? 2 = some ':' then
    match natField? s 0 2, natField? s 3 2 with
    | some hh, some mm =>
      if s.data.get? 5 = some ':' then
        match natField? s 6 2 with
        | some ss => some (hh, mm, ss, 8)
        | none => none
      else some (hh, mm, 0, 5)
    | _, _ => none
  else
    match natField? s 0 2, natField? s 2 2, natField? s 4 2 with
    | some hh, some mm, some ss => some (hh, mm, ss, 6)
    | _, _, _ => none

/-- Parse a trailing UTC offset `±HH:MM` or `±HHMM` (in seconds). -/
def parseOffsetPart? (s : String) : Option Int :=
  let sign : Option Int :=
    match s.data.get? 0 with
    | some '+' => some 1
    | some '-' => some (-1)
    | _ => none
  match sign with
  | none => none
  | some sg =>
    let rest := strDrop s 1
    if rest.data.get? 2 = some ':' then
      match natField? rest 0 2, natField? rest 3 2 with
      | some oh, some om => if rest.length = 5 then some (sg * (oh * 3600 + om * 60)) else none
      | _, _ => none
    else
      match natField? rest 0 2, natField? rest 2 2 with
      | some oh, some om => if rest.length = 4 then some (sg * (oh * 3600 + om * 60)) else none
      | _, _ => none

/-- Model of Python 3.11 `datetime.fromisoformat`, restricted to the shapes
that occur in this repository's data: a date (`YYYY-MM-DD` or `YYYYMMDD`)
optionally followed by `T` and a time (`HH:MM:SS`, `HH:MM` or `HHMMSS`),
optionally followed by an offset (`±HH:MM` or `±HHMM`).  `none` models a
raised `ValueError`. -/
def fromisoformat? (s : String) : Option PyDateTime :=
  match parseDatePart? s with
  | none => none
  | some (y, m, d, dlen) =>
    let rest := strDrop s dlen
    if strIsEmpty rest then
      (mkSecs? y m d 0 0 0).map fun v => ⟨v, 0, false⟩
    else if strStarts rest "T" ∨ strStarts rest " " then
      let trest := strDrop rest 1
      match parseTimePart? trest with
      | none => none
      | some (hh, mm, ss, tlen) =>
        let orest := strDrop trest tlen
        if strIsEmpty orest then
          (mkSecs? y m d hh mm ss).map fun v => ⟨v, 0, false⟩
        else
          match parseOffsetPart? orest with
          | none => none
          | some off =>
            (mkSecs? y m d hh mm ss).map fun v => ⟨v - off, off, true⟩
    else none

/-- Python `s.rstrip("Z")`. -/
def rstripZ (s : String) : String :=
  String.mk (s.data.reverse.dropWhile (· == 'Z')).reverse

/-- `scoring.parse_iso`: translate a trailing `Z` to `+00:00`, then
`datetime.fromisoformat`.  `.error` models an uncaught `ValueError`. -/
def parse_iso (s : String) : Except String PyDateTime :=
  let s' := if strEnds s "Z" then rstripZ s ++ "+00:00" else s
  match fromisoformat? s' with
  | some d => .ok d
  | none => .error ("ValueError: invalid isoformat string " ++ s')

/-- Model of Python `datetime.strptime(s, "%Y%m%dT%H%M%S")`.  `none` models a
raised `ValueError`. -/
def strptimeBasic? (s : String) : Option Int :=
  if s.length = 15 ∧ s.data.get? 8 = some 'T' then
    match natField? s 0 4, natField? s 4 2, natField? s 6 2,
          natField? s 9 2, natField? s 11 2, natField? s 13 2 with
    | some y, some m, some d, some hh, some mm, some ss => mkSecs? y m d hh mm ss
    | _, _, _, _, _, _ => none
  else none

/-! ### `scoring.py`: data model -/

/-- `scoring.ScheduledBlock`. -/
structure ScheduledBlock where
  title : String
  start : PyDateTime
  «end» : PyDateTime
deriving DecidableEq, Repr

/-- `ScheduledBlock.duration_minutes`; raises on mixed naive/aware bounds. -/
def ScheduledBlock.duration_minutesE (b : ScheduledBlock) : Except String ℚ :=
  (PyDateTime.subE b.«end» b.start).map (fun s => (s : ℚ) / 60)

/-- `ScheduledBlock.date_key` (`start.strftime("%Y-%m-%d")`). -/
def ScheduledBlock.date_key (b : ScheduledBlock) : String := b.start.dateKey

/-- `scoring.ExistingEvent`. -/
structure ExistingEvent where
  title : String
  start : PyDateTime
  «end» : PyDateTime
deriving DecidableEq, Repr

/-- `scoring.ScoreBreakdown` (without the derived composite, below). -/
structure ScoreBreakdown where
  correctness : ℚ := 0
  completeness : ℚ := 0
  constraint_adherence : ℚ := 0
  total_blocks : Nat := 0
  required_blocks : Int := 0
  conflict_count : Nat := 0
  constraint_violations : List String := []
deriving DecidableEq, Repr

/-- Floor of a rational, written out so proofs can evaluate it (the
denominator is positive, so Euclidean/floor division of `num` by `den` is
the mathematical floor). -/
def ratFloor (q : ℚ) : Int := Int.fdiv q.num q.den

/-- Round-half-to-even to an integer (the rounding Python's `round` uses). -/
def roundHalfEvenInt (q : ℚ) : Int :=
  let f := ratFloor q
  let r := q - f
  if r < 1/2 then f
  else if 1/2 < r then f + 1
  else if pyMod f 2 = 0 then f else f + 1

/-- Python `round(q, 1)` modelled exactly over `ℚ`. -/
def pyRound1 (q : ℚ) : ℚ := (roundHalfEvenInt (10 * q) : ℚ) / 10

/-- `ScoreBreakdown.composite_score`: weighted composite, with a 15% bonus
added only when correctness and completeness both equal exactly `1.0`,
rounded to one decimal place. -/
def ScoreBreakdown.composite_score (s : ScoreBreakdown) : ℚ :=
  let base := s.correctness * 0.40 + s.completeness * 0.25 + s.constraint_adherence * 0.20
  let base := if s.correctness = 1 ∧ s.completeness = 1
              then base + s.constraint_adherence * 0.15 else base
  pyRound1 (base * 100)

/-- `scoring.overlaps` (half-open interval overlap), with Python's
short-circuit `and`: the second comparison is evaluated only when the first
is true. -/
def overlapsE (aStart aEnd bStart bEnd : PyDateTime) : Except String Bool := do
  let l ← PyDateTime.ltE aStart bEnd
  if l then PyDateTime.ltE bStart aEnd else pure false

/-- Pure overlap test on epoch seconds (used to state the claims; matches
`overlapsE` whenever the latter succeeds). -/
def overlapsPure (aStart aEnd bStart bEnd : PyDateTime) : Bool :=
  aStart.secs < bEnd.secs && bStart.secs < aEnd.secs

/-! ### `scoring.py`: the constraints dictionary

The constraints argument is a JSON-derived Python dict; recognized keys are
modelled as `Option` fields (`none` = key absent).  A `working_hours` or
custom-rule sub-dict is likewise a record of `Option` fields, so that a
missing key can be modelled; `dict[key]` on a missing key is `KeyError`. -/

/-- The `working_hours` sub-dict. -/
structure WorkingHours where
  start_hour : Option Int := none
  end_hour : Option Int := none
deriving DecidableEq, Repr

/-- One entry of `custom_rules`: a dict with a `type` tag and the
variant-specific parameter keys, each possibly absent. -/
structure CustomRule where
  type : Option String := none
  start_hour : Option Int := none
  end_hour : Option Int := none
  value : Option Int := none
  min_days : Option Int := none
  dates : Option (List String) := none
  description : Option String := none
deriving DecidableEq, Repr

/-- The constraints dict of `score_scenario`. -/
structure Constraints where
  required_block_count : Option Int := none
  working_hours : Option WorkingHours := none
  min_duration_minutes : Option Int := none
  max_duration_minutes : Option Int := none
  date_range_start : Option String := none
  date_range_end : Option String := none
  custom_rules : Option (List CustomRule) := none
deriving DecidableEq, Repr

/-- Python `d[key]`: `KeyError` when the key is absent. -/
def getReq {α : Type} (o : Option α) (key : String) : Except String α :=
  match o with
  | some v => .ok v
  | none => .error ("KeyError: " ++ key)

/-- Python truthiness of an optional string (`if range_start and range_end:`). -/
def truthyS (o : Option String) : Bool :=
  match o with
  | some s => !(strIsEmpty s)
  | none => false

/-! ### `scoring.py`: score_scenario sections -/

/-- Text of a `CONFLICT:` violation entry. -/
def conflictMsg (b : ScheduledBlock) (e : ExistingEvent) : String :=
  "CONFLICT: '" ++ b.title ++ "' (" ++ b.start.aHHMM ++ "-" ++ b.«end».hhmm ++
    ") overlaps '" ++ e.title ++ "' (" ++ e.start.aHHMM ++ "-" ++ e.«end».hhmm ++ ")"

/-- Inner loop of the correctness section: conflicts of one block against
every existing event, in order. -/
def conflictEvents (b : ScheduledBlock) : List ExistingEvent → Except String (Nat × List String)
  | [] => .ok (0, [])
  | e :: rest => do
    let o ← overlapsE b.start b.«end» e.start e.«end»
    let (n, ms) ← conflictEvents b rest
    if o then .ok (n + 1, conflictMsg b e :: ms) else .ok (n, ms)

/-- Correctness section: count every overlapping (block, existing-event)
pair and collect a `CONFLICT:` message per pair. -/
def conflictSection (existing : List ExistingEvent) :
    List ScheduledBlock → Except String (Nat × List String)
  | [] => .ok (0, [])
  | b :: rest => do
    let (n, ms) ← conflictEvents b existing
    let (n', ms') ← conflictSection existing rest
    .ok (n + n', ms ++ ms')

/-- Text of a `WORKING_HOURS:` violation entry. -/
def whMsg (b : ScheduledBlock) (sh eh : Int) : String :=
  "WORKING_HOURS: '" ++ b.title ++ "' at " ++ b.start.hhmm ++ "-" ++ b.«end».hhmm ++
    " outside " ++ toString sh ++ ":00-" ++ toString eh ++ ":00"

/-- Working-hours check for one block.  `wh["start_hour"]` and
`wh["end_hour"]` are both read on every path (condition or message), in that
order, so a missing key raises `KeyError`. -/
def whBlock (wh : WorkingHours) (b : ScheduledBlock) : Except String (Nat × List String) := do
  let sh ← getReq wh.start_hour "start_hour"
  let eh ← getReq wh.end_hour "end_hour"
  let bhStart := b.start.hour
  let bhEnd := b.«end».hour + (if b.«end».minute > 0 then 1 else 0)
  if bhStart < sh ∨ bhEnd > eh then .ok (1, [whMsg b sh eh]) else .ok (0, [])

/-- Working-hours section: `(checks, violations, messages)`. -/
def workingHoursSection (wh? : Option WorkingHours) :
    List ScheduledBlock → Except String (Nat × Nat × List String)
  | [] => .ok (0, 0, [])
  | b :: rest =>
    match wh? with
    | none => .ok (0, 0, [])
    | some wh => do
      let (v, ms) ← whBlock wh b
      let (c', v', ms') ← workingHoursSection wh? rest
      .ok (1 + c', v + v', ms ++ ms')

/-- Python `f"{q:.0f}"` (round to integer, half-to-even). -/
def fmtQ0 (q : ℚ) : String := toString (roundHalfEvenInt q)

/-- Text of a `DURATION:` violation entry. -/
def durMsg (b : ScheduledBlock) (d : ℚ) (bound : Int) (isMin : Bool) : String :=
  "DURATION: '" ++ b.title ++ "' is " ++ fmtQ0 d ++ "min, " ++
    (if isMin then "minimum" else "maximum") ++ " is " ++ toString bound ++ "min"

/-- Duration checks for one block: the min bound, then the max bound, each
only when present, with a 1-minute tolerance. -/
def durBlock (minDur maxDur : Option Int) (b : ScheduledBlock) :
    Except String (Nat × Nat × List String) := do
  let (c1, v1, m1) ← (match minDur with
    | none => pure (0, 0, [])
    | some lo => do
        let d ← b.duration_minutesE
        if d < (lo : ℚ) - 1 then pure (1, 1, [durMsg b d lo true]) else pure (1, 0, []))
  let (c2, v2, m2) ← (match maxDur with
    | none => pure (0, 0, [])
    | some hi => do
        let d ← b.duration_minutesE
        if d > (hi : ℚ) + 1 then pure (1, 1, [durMsg b d hi false]) else pure (1, 0, []))
  pure (c1 + c2, v1 + v2, m1 ++ m2)

/-- Duration section over all blocks. -/
def durationSection (minDur maxDur : Option Int) :
    List ScheduledBlock → Except String (Nat × Nat × List String)
  | [] => .ok (0, 0, [])
  | b :: rest => do
    let (c, v, ms) ← durBlock minDur maxDur b
    let (c', v', ms') ← durationSection minDur maxDur rest
    .ok (c + c', v + v', ms ++ ms')

/-- Text of a `DATE_RANGE:` violation entry. -/
def rangeMsg (b : ScheduledBlock) (rs re : PyDateTime) : String :=
  "DATE_RANGE: '" ++ b.title ++ "' is outside " ++ rs.dateKey ++ "-" ++ re.dateKey

/-- Date-range checks over all blocks (Python short-circuit `or`). -/
def dateRangeBlocks (rs re : PyDateTime) :
    List ScheduledBlock → Except String (Nat × Nat × List String)
  | [] => .ok (0, 0, [])
  | b :: rest => do
    let early ← PyDateTime.ltE b.start rs
    let bad ← if early then pure true else PyDateTime.ltE re b.«end»
    let (c', v', ms') ← dateRangeBlocks rs re rest
    if bad then .ok (1 + c', 1 + v', rangeMsg b rs re :: ms')
    else .ok (1 + c', v', ms')

/-- Date-range section: active only when both bounds are truthy; the bounds
are then parsed with `parse_iso` (which may raise). -/
def dateRangeSection (rs? re? : Option String) (blocks : List ScheduledBlock) :
    Except String (Nat × Nat × List String) :=
  if truthyS rs? && truthyS re? then do
    let rs ← parse_iso (rs?.getD "")
    let re ← parse_iso (re?.getD "")
    dateRangeBlocks rs re blocks
  else .ok (0, 0, [])

/-- Text of a `TIME_WINDOW:` violation entry. -/
def twMsg (b : ScheduledBlock) (sh eh : Int) : String :=
  "TIME_WINDOW: '" ++ b.title ++ "' at " ++ b.start.hhmm ++ " outside " ++
    toString sh ++ ":00-" ++ toString eh ++ ":00"

/-- `time_window` custom rule over all blocks.  As with working hours, both
`rule["start_hour"]` and `rule["end_hour"]` are read on every path. -/
def timeWindowBlocks (rule : CustomRule) :
    List ScheduledBlock → Except String (Nat × Nat × List String)
  | [] => .ok (0, 0, [])
  | b :: rest => do
    let sh ← getReq rule.start_hour "start_hour"
    let eh ← getReq rule.end_hour "end_hour"
    let (c', v', ms') ← timeWindowBlocks rule rest
    if b.start.hour < sh ∨ b.«end».hour > eh then
      .ok (1 + c', 1 + v', twMsg b sh eh :: ms')
    else .ok (1 + c', v', ms')

/-- Text of a `BUFFER:` violation entry (`gap` in seconds). -/
def bufferMsg (b : ScheduledBlock) (evTitle : String) (gap : Int) (v : Int) : String :=
  "BUFFER: '" ++ b.title ++ "' has only " ++ fmtQ0 ((gap : ℚ) / 60) ++ "min gap to '" ++
    evTitle ++ "', need " ++ toString v ++ "min"

/-- `min_buffer_minutes` inner loop: one block against every interval of
`all_events`.  An interval with exactly the block's start and end is skipped
("self"); every other interval counts one check (the counter is incremented
before the overlap test); an overlapping interval then contributes nothing
further, and a non-overlapping one fails when the gap to the nearer boundary
is under `v` minutes. -/
def bufferEvents (v : Int) (b : ScheduledBlock) :
    List (PyDateTime × PyDateTime × String) → Except String (Nat × Nat × List String)
  | [] => .ok (0, 0, [])
  | (es, ee, et) :: rest =>
    if PyDateTime.eqPy es b.start && PyDateTime.eqPy ee b.«end» then
      bufferEvents v b rest
    else do
      let gap? ← (do
        let l1 ← PyDateTime.leE b.«end» es
        if l1 then do
          let g ← PyDateTime.subE es b.«end»
          pure (some g)
        else do
          let l2 ← PyDateTime.leE ee b.start
          if l2 then do
            let g ← PyDateTime.subE b.start ee
            pure (some g)
          else pure none)
      let (c', v', ms') ← bufferEvents v b rest
      match gap? with
      | none => .ok (1 + c', v', ms')
      | some g =>
        if g < v * 60 then .ok (1 + c', 1 + v', bufferMsg b et g v :: ms')
        else .ok (1 + c', v', ms')

/-- `min_buffer_minutes` rule over all blocks against
`existing`-as-tuples ++ `blocks`-as-tuples. -/
def bufferBlocks (v : Int) (allEvents : List (PyDateTime × PyDateTime × String)) :
    List ScheduledBlock → Except String (Nat × Nat × List String)
  | [] => .ok (0, 0, [])
  | b :: rest => do
    let (c, vi, ms) ← bufferEvents v b allEvents
    let (c', v', ms') ← bufferBlocks v allEvents rest
    .ok (c + c', vi + v', ms ++ ms')

/-- First-encounter-ordered date counts (models
`collections.Counter(b.date_key for b in blocks)`). -/
def dayCounts (blocks : List ScheduledBlock) : List (String × Nat) :=
  blocks.foldl (fun acc b =>
    let k := b.date_key
    if acc.any (fun p => p.1 == k) then
      acc.map (fun p => if p.1 == k then (p.1, p.2 + 1) else p)
    else acc ++ [(k, 1)]) []

/-- `max_per_day` rule: one check per distinct date present. -/
def maxPerDayCounts (maxVal : Int) : List (String × Nat) → Nat × Nat × List String
  | [] => (0, 0, [])
  | (day, count) :: rest =>
    let (c', v', ms') := maxPerDayCounts maxVal rest
    if (count : Int) > maxVal then
      (1 + c', 1 + v',
        ("MAX_PER_DAY: " ++ toString count ++ " blocks on " ++ day ++ ", max is " ++
          toString maxVal) :: ms')
    else (1 + c', v', ms')

/-- Number of distinct `date_key`s among the blocks (`len(set(...))`). -/
def uniqueDays (blocks : List ScheduledBlock) : Nat :=
  (blocks.map ScheduledBlock.date_key).eraseDups.length

/-- `spread_across_days` rule: a single check. -/
def spreadRule (rule : CustomRule) (blocks : List ScheduledBlock) : Nat × Nat × List String :=
  let u := uniqueDays blocks
  let minDays := rule.min_days.getD 1
  if (u : Int) < minDays then
    (1, 1, ["SPREAD: blocks on " ++ toString u ++ " days, need at least " ++ toString minDays])
  else (1, 0, [])

/-- `blocked_dates` rule: one check per block. -/
def blockedBlocks (dates : List String) (desc : String) :
    List ScheduledBlock → Nat × Nat × List String
  | [] => (0, 0, [])
  | b :: rest =>
    let (c', v', ms') := blockedBlocks dates desc rest
    let bd := b.start.dateKey
    if dates.contains bd then
      (1 + c', 1 + v',
        ("BLOCKED_DATE: '" ++ b.title ++ "' on " ++ bd ++ " is on a blocked date (" ++
          desc ++ ")") :: ms')
    else (1 + c', v', ms')

/-- Dispatch of one custom rule (`rule.get("type")`); an unrecognized or
missing type contributes nothing. -/
def customRule (blocks : List ScheduledBlock) (existing : List ExistingEvent)
    (rule : CustomRule) : Except String (Nat × Nat × List String) :=
  match rule.type with
  | some "time_window" => timeWindowBlocks rule blocks
  | some "min_buffer_minutes" => do
      let v ← getReq rule.value "value"
      let allEvents := existing.map (fun e => (e.start, e.«end», e.title)) ++
        blocks.map (fun b => (b.start, b.«end», b.title))
      bufferBlocks v allEvents blocks
  | some "max_per_day" => do
      let v ← getReq rule.value "value"
      pure (maxPerDayCounts v (dayCounts blocks))
  | some "spread_across_days" => pure (spreadRule rule blocks)
  | some "blocked_dates" =>
      pure (blockedBlocks (rule.dates.getD []) ((rule.description.getD "")) blocks)
  | _ => .ok (0, 0, [])

/-- The `custom_rules` loop. -/
def customSection (blocks : List ScheduledBlock) (existing : List ExistingEvent) :
    List CustomRule → Except String (Nat × Nat × List String)
  | [] => .ok (0, 0, [])
  | r :: rest => do
    let (c, v, ms) ← customRule blocks existing r
    let (c', v', ms') ← customSection blocks existing rest
    .ok (c + c', v + v', ms ++ ms')

/-- `scoring.score_scenario`: completeness, correctness (conflicts), then
constraint adherence over every active check, with messages collected in
discovery order.  `.error` models an uncaught Python exception (`KeyError`,
`TypeError`, `ValueError`). -/
def score_scenario (blocks : List ScheduledBlock) (existing : List ExistingEvent)
    (constraints : Constraints) : Except String ScoreBreakdown := do
  let required := constraints.required_block_count.getD 0
  let total := blocks.length
  let completeness : ℚ :=
    if required > 0 then min 1 ((total : ℚ) / (required : ℚ)) else 1
  let (conflictCount, conflictMsgs) ← conflictSection existing blocks
  let correctness : ℚ :=
    if blocks.length > 0 then max 0 (1 - (conflictCount : ℚ) / (blocks.length : ℚ)) else 0
  let (c1, v1, m1) ← workingHoursSection constraints.working_hours blocks
  let (c2, v2, m2) ← durationSection constraints.min_duration_minutes
    constraints.max_duration_minutes blocks
  let (c3, v3, m3) ← dateRangeSection constraints.date_range_start
    constraints.date_range_end blocks
  let (c4, v4, m4) ← customSection blocks existing (constraints.custom_rules.getD [])
  let totalChecks := c1 + c2 + c3 + c4
  let violations := v1 + v2 + v3 + v4
  let adherence : ℚ :=
    if totalChecks > 0 then max 0 (1 - (violations : ℚ) / (totalChecks : ℚ)) else 1
  .ok { correctness := correctness
        completeness := completeness
        constraint_adherence := adherence
        total_blocks := total
        required_blocks := required
        conflict_count := conflictCount
        constraint_violations := conflictMsgs ++ m1 ++ m2 ++ m3 ++ m4 }

/-! ### `harness.py`: the seeded random generator as an oracle stream -/

/-- One CPython `random.Random` method result: an integer draw (`randint`
result or `choice`/`_randbelow` index) or a real draw (`random()` result,
a dyadic rational in `[0, 1)`). -/
inductive Draw
  | dint (n : Int)
  | dreal (q : ℚ)
deriving DecidableEq, Repr

/-- The stream of method-level draws produced by one `random.Random(seed)`
object, consumed front to back. -/
abbrev RStream := List Draw

/-- Consume an integer draw (`rng.randint(a, b)` result). -/
def takeInt (s : RStream) : Int × RStream :=
  match s with
  | .dint n :: r => (n, r)
  | .dreal _ :: r => (0, r)
  | [] => (0, [])

/-- Consume a real draw (`rng.random()` result). -/
def takeReal (s : RStream) : ℚ × RStream :=
  match s with
  | .dreal q :: r => (q, r)
  | .dint _ :: r => (0, r)
  | [] => (0, [])

/-- `rng.choice(xs)`: consume the index drawn by `_randbelow(len(xs))`. -/
def pyChoice {α : Type} (dflt : α) (xs : List α) (s : RStream) : α × RStream :=
  let (i, s') := takeInt s
  (xs.getD i.toNat dflt, s')

/-- The IEEE-754 double `0.3` (the literal Python compares `rng.random()`
against), as an exact rational. -/
def dbl03 : ℚ := 5404319552844595 / 18014398509481984

/-- The IEEE-754 double `0.6`. -/
def dbl06 : ℚ := 5404319552844595 / 9007199254740992

/-- The IEEE-754 double `0.4`. -/
def dbl04 : ℚ := 3602879701896397 / 9007199254740992

/-! ### `harness.py`: noise-synthesizer constants -/

/-- `harness.TIMEZONES`. -/
def TIMEZONES : List String :=
  ["America/New_York", "America/Chicago", "America/Los_Angeles", "Europe/London"]

/-- `harness.ATTENDEES`. -/
def ATTENDEES : List String :=
  ["alice@company.com", "bob@company.com", "charlie@company.com",
   "diana@company.com", "eve@company.com", "frank@company.com",
   "grace@company.com", "heidi@company.com"]

/-- `harness.DESCRIPTIONS` (the third entry contains an escaped backslash-n,
exactly as in the Python source literal). -/
def DESCRIPTIONS : List String :=
  ["Weekly sync to align on priorities and blockers.",
   "Please review the attached agenda before the meeting.",
   "Zoom link: https://zoom.us/j/123456789\\nDial-in: +1-555-0100",
   "Conference Room B - 3rd Floor",
   "Action items from last week will be reviewed.",
   "Bring your laptop for the live demo portion.",
   ""]

/-- `harness.LOCATIONS`. -/
def LOCATIONS : List String :=
  ["Conference Room A", "Conference Room B", "Zoom",
   "Google Meet", "Room 301", "Main Boardroom", ""]

/-- The participation statuses drawn for attendees. -/
def PARTSTATS : List String := ["ACCEPTED", "TENTATIVE", "NEEDS-ACTION"]

/-- The reminder offsets drawn for `VALARM` blocks. -/
def TRIGGERS : List Int := [5, 10, 15, 30]

/-- The simplified standard-time UTC offsets (hours) used by the timezone
rewrite (`offsets.get(chosen_tz, 0)`). -/
def tzOffsetHours (tz : String) : Int :=
  if tz = "America/New_York" then -5
  else if tz = "America/Chicago" then -6
  else if tz = "America/Los_Angeles" then -8
  else if tz = "Europe/London" then 0
  else 0

/-- `harness.VTIMEZONE_BLOCKS[tz]`, already split into lines; `[]` for a
timezone not in the dict. -/
def vtimezoneLines (tz : String) : List String :=
  if tz = "America/New_York" then
    ["BEGIN:VTIMEZONE", "TZID:America/New_York",
     "BEGIN:STANDARD", "DTSTART:19701101T020000", "RRULE:FREQ=YEARLY;BYMONTH=11;BYDAY=1SU",
     "TZOFFSETFROM:-0400", "TZOFFSETTO:-0500", "TZNAME:EST", "END:STANDARD",
     "BEGIN:DAYLIGHT", "DTSTART:19700308T020000", "RRULE:FREQ=YEARLY;BYMONTH=3;BYDAY=2SU",
     "TZOFFSETFROM:-0500", "TZOFFSETTO:-0400", "TZNAME:EDT", "END:DAYLIGHT",
     "END:VTIMEZONE"]
  else if tz = "America/Chicago" then
    ["BEGIN:VTIMEZONE", "TZID:America/Chicago",
     "BEGIN:STANDARD", "DTSTART:19701101T020000", "RRULE:FREQ=YEARLY;BYMONTH=11;BYDAY=1SU",
     "TZOFFSETFROM:-0500", "TZOFFSETTO:-0600", "TZNAME:CST", "END:STANDARD",
     "BEGIN:DAYLIGHT", "DTSTART:19700308T020000", "RRULE:FREQ=YEARLY;BYMONTH=3;BYDAY=2SU",
     "TZOFFSETFROM:-0600", "TZOFFSETTO:-0500", "TZNAME:CDT", "END:DAYLIGHT",
     "END:VTIMEZONE"]
  else if tz = "America/Los_Angeles" then
    ["BEGIN:VTIMEZONE", "TZID:America/Los_Angeles",
     "BEGIN:STANDARD", "DTSTART:19701101T020000", "RRULE:FREQ=YEARLY;BYMONTH=11;BYDAY=1SU",
     "TZOFFSETFROM:-0700", "TZOFFSETTO:-0800", "TZNAME:PST", "END:STANDARD",
     "BEGIN:DAYLIGHT", "DTSTART:19700308T020000", "RRULE:FREQ=YEARLY;BYMONTH=3;BYDAY=2SU",
     "TZOFFSETFROM:-0800", "TZOFFSETTO:-0700", "TZNAME:PDT", "END:DAYLIGHT",
     "END:VTIMEZONE"]
  else if tz = "Europe/London" then
    ["BEGIN:VTIMEZONE", "TZID:Europe/London",
     "BEGIN:STANDARD", "DTSTART:19701025T020000", "RRULE:FREQ=YEARLY;BYMONTH=10;BYDAY=-1SU",
     "TZOFFSETFROM:+0100", "TZOFFSETTO:+0000", "TZNAME:GMT", "END:STANDARD",
     "BEGIN:DAYLIGHT", "DTSTART:19700329T010000", "RRULE:FREQ=YEARLY;BYMONTH=3;BYDAY=-1SU",
     "TZOFFSETFROM:+0000", "TZOFFSETTO:+0100", "TZNAME:BST", "END:DAYLIGHT",
     "END:VTIMEZONE"]
  else []

/-! ### `harness.py`: `_noisify_event` -/

/-- Zero-padded two-digit rendering of a (non-negative) integer draw. -/
def padInt2 (n : Int) : String := padNat 2 n.toNat

/-- Python `str.title()` for the strings that occur here: upper-case each
letter starting an alphabetic run, lower-case the other letters. -/
def titleChars : Bool → List Char → List Char
  | _, [] => []
  | prevAlpha, c :: rest =>
    let c' := if c.isAlpha then (if prevAlpha then c.toLower else c.toUpper) else c
    c' :: titleChars c.isAlpha rest

/-- Python `str.title()`. -/
def titleCase (s : String) : String := String.mk (titleChars false s.data)

/-- `s[a:b]` for ASCII strings. -/
def strSlice (s : String) (a b : Nat) : String := String.mk ((s.data.drop a).take (b - a))

/-- The `UID:` line built from the md5 hex digest. -/
def uidLine (h : String) : String :=
  "UID:" ++ strSlice h 0 8 ++ "-" ++ strSlice h 8 12 ++ "-" ++ strSlice h 12 16 ++ "-" ++
    strSlice h 16 20 ++ "-" ++ strSlice h 20 32 ++ "@google.com"

/-- An `ORGANIZER` line. -/
def organizerLine (a : String) : String :=
  "ORGANIZER;CN=" ++ titleCase (strSplitFirst '@' a).1 ++ ":mailto:" ++ a

/-- An `ATTENDEE` line. -/
def attendeeLine (a status : String) : String :=
  "ATTENDEE;CUTYPE=INDIVIDUAL;ROLE=REQ-PARTICIPANT;PARTSTAT=" ++ status ++ ";CN=" ++
    titleCase (strSplitFirst '@' a).1 ++ ";X-NUM-GUESTS=0:mailto:" ++ a

/-- Non-marker event lines (everything except the `BEGIN:VEVENT` /
`END:VEVENT` markers is carried over). -/
def notMarker (l : String) : Bool :=
  !(strStarts l "BEGIN:VEVENT" || strStarts l "END:VEVENT")

/-- The per-line pass of `_noisify_event`: skip the markers; when a timezone
was chosen and the event carries no recurrence rule, rewrite a
`DTSTART:`/`DTEND:` line whose value ends in `Z` into a timezone-qualified
local wall-clock line (recording the timezone); copy every other line
unchanged.  `.error` models a raised `ValueError` from `strptime`. -/
def processEventLines (tz? : Option String) (hasRRule : Bool) :
    List String → List String → Except String (List String × List String)
  | [], used => .ok ([], used)
  | line :: rest, used =>
    if !(notMarker line) then processEventLines tz? hasRRule rest used
    else
      match tz? with
      | some tz =>
        if !hasRRule && (strStarts line "DTSTART:" || strStarts line "DTEND:") then
          let key := (strSplitFirst ':' line).1
          let val := (strSplitFirst ':' line).2
          if strEnds val "Z" then
            match strptimeBasic? (rstripZ val) with
            | none => .error "ValueError: time data does not match format"
            | some utcSecs =>
              let localSecs := utcSecs + tzOffsetHours tz * 3600
              let newLine := key ++ ";TZID=" ++ tz ++ ":" ++
                PyDateTime.strftimeBasic ⟨localSecs, 0, false⟩
              (processEventLines tz? hasRRule rest (addToSet tz used)).map
                (fun p => (newLine :: p.1, p.2))
          else
            (processEventLines tz? hasRRule rest used).map (fun p => (line :: p.1, p.2))
        else
          (processEventLines tz? hasRRule rest used).map (fun p => (line :: p.1, p.2))
      | none =>
        (processEventLines tz? hasRRule rest used).map (fun p => (line :: p.1, p.2))

/-- The attendee loop: `1..n` times draw an attendee and a participation
status. -/
def attendeeLines : Nat → RStream → List String × RStream
  | 0, s => ([], s)
  | n + 1, s =>
    let (a, s) := pyChoice "" ATTENDEES s
    let (st, s) := pyChoice "" PARTSTATS s
    let (ls, s') := attendeeLines n s
    (attendeeLine a st :: ls, s')

/-- `harness._noisify_event`: prepend UID/CREATED/LAST-MODIFIED/SEQUENCE/
STATUS/TRANSP noise, decide the timezone rewrite (30% chance, skipped
whenever any event line contains `RRULE:`), pass the original lines
through `processEventLines`, then append optional DESCRIPTION/LOCATION/
ORGANIZER noise, 1–3 ATTENDEE lines and an optional VALARM block.
Returns the new event lines, the remaining draw stream and the updated
used-timezone set. -/
def noisifyEvent (md5 : String → String) (eventLines : List String) (idx : Nat)
    (s0 : RStream) (usedTzs : List String) :
    Except String (List String × RStream × List String) := do
  let (u, s) := takeInt s0
  let uidHash := md5 ("event-" ++ toString idx ++ "-" ++ toString u)
  let lUid := uidLine uidHash
  let (createdDay, s) := takeInt s
  let (mon, s) := takeInt s
  let (ch, s) := takeInt s
  let (cm, s) := takeInt s
  let lCreated := "CREATED:20250" ++ toString mon ++ padInt2 createdDay ++ "T" ++
    padInt2 ch ++ padInt2 cm ++ "00Z"
  let (lh, s) := takeInt s
  let (lm, s) := takeInt s
  let lLastMod := "LAST-MODIFIED:20250115T" ++ padInt2 lh ++ padInt2 lm ++ "00Z"
  let (sq, s) := takeInt s
  let lSeq := "SEQUENCE:" ++ toString sq
  let (r1, s) := takeReal s
  let (chosenTz, s) :=
    if r1 < dbl03 then
      let (tz, s') := pyChoice "" TIMEZONES s
      (some tz, s')
    else (none, s)
  let hasRRule := eventLines.any (fun l => strHasSub l "RRULE:")
  let (body, used') ← processEventLines chosenTz hasRRule eventLines usedTzs
  let (r2, s) := takeReal s
  let (descLines, s) :=
    if r2 < dbl06 then
      let (d, s') := pyChoice "" DESCRIPTIONS s
      (if strIsEmpty d then [] else ["DESCRIPTION:" ++ d], s')
    else ([], s)
  let (r3, s) := takeReal s
  let (locLines, s) :=
    if r3 < (1 : ℚ) / 2 then
      let (l, s') := pyChoice "" LOCATIONS s
      (if strIsEmpty l then [] else ["LOCATION:" ++ l], s')
    else ([], s)
  let (r4, s) := takeReal s
  let (orgLines, s) :=
    if r4 < dbl04 then
      let (a, s') := pyChoice "" ATTENDEES s
      ([organizerLine a], s')
    else ([], s)
  let (nAtt, s) := takeInt s
  let (attLines, s) := attendeeLines nAtt.toNat s
  let (r5, s) := takeReal s
  let (alarmLines, s) :=
    if r5 < (1 : ℚ) / 2 then
      let (t, s') := pyChoice 0 TRIGGERS s
      (["BEGIN:VALARM", "ACTION:DISPLAY", "TRIGGER:-PT" ++ toString t ++ "M",
        "DESCRIPTION:Reminder", "END:VALARM"], s')
    else ([], s)
  let headerNoise := [lUid, lCreated, lLastMod, lSeq, "STATUS:CONFIRMED", "TRANSP:OPAQUE"]
  let extraNoise := descLines ++ locLines ++ orgLines ++ attLines ++ alarmLines
  .ok (["BEGIN:VEVENT"] ++ headerNoise ++ body ++ extraNoise ++ ["END:VEVENT"], s, used')

/-! ### `harness.py`: `add_realistic_noise` -/

/-- The header lines substituted for `BEGIN:VCALENDAR`. -/
def calendarHeader : List String :=
  ["BEGIN:VCALENDAR", "PRODID:-//Google Inc//Google Calendar 70.9054//EN", "VERSION:2.0",
   "CALSCALE:GREGORIAN", "METHOD:PUBLISH", "X-WR-CALNAME:Work Calendar",
   "X-WR-TIMEZONE:America/New_York"]

/-- Loop state of `add_realistic_noise`. -/
structure NoiseState where
  output : List String
  usedTzs : List String
  eventIdx : Nat
  inEvent : Bool
  eventLines : List String
  stream : RStream

/-- `"\n".join(ls)`. -/
def joinNL : List String → String
  | [] => ""
  | [x] => x
  | x :: rest => x ++ "\n" ++ joinNL rest

/-- The line loop of `add_realistic_noise`. -/
def noiseLoop (md5 : String → String) : List String → NoiseState → Except String NoiseState
  | [], st => .ok st
  | line :: rest, st =>
    let l := strStrip line
    if l == "BEGIN:VCALENDAR" then
      noiseLoop md5 rest { st with output := st.output ++ calendarHeader }
    else if l == "VERSION:2.0" then
      noiseLoop md5 rest st
    else if l == "BEGIN:VEVENT" then
      noiseLoop md5 rest { st with inEvent := true, eventLines := [l] }
    else if l == "END:VEVENT" && st.inEvent then do
      let (noisy, s', used') ←
        noisifyEvent md5 (st.eventLines ++ [l]) st.eventIdx st.stream st.usedTzs
      noiseLoop md5 rest
        { st with
          output := st.output ++ noisy
          eventIdx := st.eventIdx + 1
          inEvent := false
          stream := s'
          usedTzs := used' }
    else if st.inEvent then
      noiseLoop md5 rest { st with eventLines := st.eventLines ++ [l] }
    else if l == "END:VCALENDAR" then
      let tzLines := (sortStrings st.usedTzs).foldl (fun acc tz => acc ++ vtimezoneLines tz) []
      noiseLoop md5 rest { st with output := st.output ++ tzLines ++ [l] }
    else
      noiseLoop md5 rest { st with output := st.output ++ [l] }

/-- `harness.add_realistic_noise`, parameterized by the md5 oracle and the
draw stream of the seeded generator. -/
def addRealisticNoiseWith (md5 : String → String) (icalData : String) (s : RStream) :
    Except String String :=
  (noiseLoop md5 (toLines icalData) ⟨[], [], 0, false, [], s⟩).map (fun st => joinNL st.output)

/-- The ambient process state an impure implementation could have read:
wall-clock time, a call counter, the global `random` module stream, plus the
process libraries (the seeded-PRNG seed-to-stream map and md5). -/
structure PyEnv where
  wallClock : Int
  callCount : Nat
  globalRandomDraws : RStream
  randomLib : Int → RStream
  md5Lib : String → String

/-- `harness.add_realistic_noise(ical_data, seed)` run in an ambient
environment: it constructs its own `random.Random(seed)` (the stream
`env.randomLib seed`) and never consults the clock, the call counter or the
global generator. -/
def add_realistic_noise (env : PyEnv) (icalData : String) (seed : Int) :
    Except String String :=
  addRealisticNoiseWith env.md5Lib icalData (env.randomLib seed)

/-! ### `harness.py`: `expand_recurring_for_scoring` -/

/-- Oracle for `dateutil.rrule.rrulestr(...).between(rs, re, inc=True)`:
given the `RRULE:`-prefixed rule text, the naive dtstart epoch seconds and
the naive window bounds, return `none` to model a raised exception or
`some occs` for the naive occurrence starts. -/
abbrev RRuleOracle := String → Int → Int → Int → Option (List Int)

/-- An oracle on which every recurrence rule fails to parse. -/
def failingRRuleOracle : RRuleOracle := fun _ _ _ _ => none

/-- Python-dict update (`current[key] = val`): newest binding first. -/
def dictSet (d : List (String × String)) (k v : String) : List (String × String) :=
  (k, v) :: d

/-- Python `current.get(key, default)`. -/
def dictGetD (d : List (String × String)) (k dflt : String) : String :=
  match d.find? (fun p => p.1 == k) with
  | some p => p.2
  | none => dflt

/-- The window test `rs <= start <= re_ or rs <= end <= re_` with Python's
chained-comparison short-circuit; raises `TypeError` when a naive datetime
meets the aware window bounds. -/
def windowTest (rs re_ s e : PyDateTime) : Except String Bool := do
  let a ← PyDateTime.leE rs s
  let c1 ← if a then PyDateTime.leE s re_ else pure false
  if c1 then pure true
  else do
    let b ← PyDateTime.leE rs e
    if b then PyDateTime.leE e re_ else pure false

/-- Event completion at `END:VEVENT` in `expand_recurring_for_scoring`:
parse DTSTART/DTEND (skipping the event on failure), compute the duration,
then either expand the recurrence rule through the oracle — falling back to
a single windowed occurrence when the oracle fails — or window-test the
plain event. -/
def finishEvent (oracle : RRuleOracle) (rs re_ : PyDateTime)
    (cur : List (String × String)) : Except String (List ExistingEvent) :=
  let summary := dictGetD cur "SUMMARY" "Untitled"
  match parse_iso (dictGetD cur "DTSTART" ""), parse_iso (dictGetD cur "DTEND" "") with
  | .ok start, .ok e => do
    let duration ← PyDateTime.subE e start
    let rruleStr := dictGetD cur "RRULE" ""
    if rruleStr ≠ "" then
      match oracle ("RRULE:" ++ rruleStr) start.stripTz.secs rs.stripTz.secs re_.stripTz.secs with
      | some occs =>
          .ok (occs.map (fun o =>
            { title := summary, start := ⟨o, 0, true⟩, «end» := ⟨o + duration, 0, true⟩ }))
      | none => do
          let inw ← windowTest rs re_ start e
          .ok (if inw then [{ title := summary, start := start, «end» := e }] else [])
    else do
      let inw ← windowTest rs re_ start e
      .ok (if inw then [{ title := summary, start := start, «end» := e }] else [])
  | _, _ => .ok []

/-- The line loop of `expand_recurring_for_scoring`: reset the field dict at
`BEGIN:VEVENT`, complete an event at `END:VEVENT` (and keep parsing the
remaining lines), record `KEY[;PARAMS]:VALUE` lines with the parameters
stripped from the key. -/
def expandLoop (oracle : RRuleOracle) (rs re_ : PyDateTime) :
    List String → List (String × String) → Except String (List ExistingEvent)
  | [], _ => .ok []
  | line :: rest, cur =>
    let l := strStrip line
    if l == "BEGIN:VEVENT" then expandLoop oracle rs re_ rest []
    else if l == "END:VEVENT" then do
      let evs ← finishEvent oracle rs re_ cur
      let evs' ← expandLoop oracle rs re_ rest cur
      .ok (evs ++ evs')
    else if l.data.contains ':' then
      let (k0, v) := strSplitFirst ':' l
      expandLoop oracle rs re_ rest (dictSet cur (strSplitFirst ';' k0).1 v)
    else expandLoop oracle rs re_ rest cur

/-- `harness.expand_recurring_for_scoring`, parameterized by the
recurrence-rule oracle. -/
def expand_recurring_for_scoring (oracle : RRuleOracle)
    (icalData rangeStart rangeEnd : String) : Except String (List ExistingEvent) := do
  let rs ← parse_iso rangeStart
  let re_ ← parse_iso rangeEnd
  expandLoop oracle rs re_ (toLines icalData) []

/-! ### Specification-side counting functions (used to state the claims) -/

/-- Number of (block, existing-event) pairs whose half-open intervals
overlap, with no deduplication per block. -/
def conflictPairs (blocks : List ScheduledBlock) (existing : List ExistingEvent) : Nat :=
  (blocks.map (fun b =>
    existing.countP (fun e => overlapsPure b.start b.«end» e.start e.«end»))).sum

/-- An interval tuple exactly matching the block's start and end
(the "self" exclusion of the buffer rule). -/
def isSelfMatch (b : ScheduledBlock) (t : PyDateTime × PyDateTime × String) : Bool :=
  PyDateTime.eqPy t.1 b.start && PyDateTime.eqPy t.2.1 b.«end»

/-- The `existing`-then-`blocks` interval tuples the buffer rule scans. -/
def allIntervals (blocks : List ScheduledBlock) (existing : List ExistingEvent) :
    List (PyDateTime × PyDateTime × String) :=
  existing.map (fun e => (e.start, e.«end», e.title)) ++
    blocks.map (fun b => (b.start, b.«end», b.title))

/-- The gap (seconds) from a block to a non-overlapping interval's nearer
boundary, with the same branch order as the code. -/
def specGap (b : ScheduledBlock) (t : PyDateTime × PyDateTime × String) : Int :=
  if b.«end».secs ≤ t.1.secs then t.1.secs - b.«end».secs else b.start.secs - t.2.1.secs

/-- A failing buffer pair: not a self match, not overlapping, and with a gap
below `v` minutes. -/
def bufferFails (v : Int) (b : ScheduledBlock) (t : PyDateTime × PyDateTime × String) : Bool :=
  !isSelfMatch b t && !overlapsPure b.start b.«end» t.1 t.2.1 &&
    decide (specGap b t < v * 60)

/-- Checks the code's buffer rule performs: one per (block, interval) pair
excluding only exact self matches — overlap does not exempt a pair. -/
def bufferCheckCount (blocks : List ScheduledBlock)
    (evs : List (PyDateTime × PyDateTime × String)) : Nat :=
  (blocks.map (fun b => evs.countP (fun t => !isSelfMatch b t))).sum

/-- Violations of the buffer rule. -/
def bufferViolationCount (v : Int) (blocks : List ScheduledBlock)
    (evs : List (PyDateTime × PyDateTime × String)) : Nat :=
  (blocks.map (fun b => evs.countP (bufferFails v b))).sum

/-- The check count the claim asserts ("one check per (block, other-interval)
non-overlapping pair; pairs that overlap the block contribute no check"):
non-self AND non-overlapping pairs only. -/
def claimBufferCheckCount (blocks : List ScheduledBlock)
    (evs : List (PyDateTime × PyDateTime × String)) : Nat :=
  (blocks.map (fun b =>
    evs.countP (fun t => !isSelfMatch b t && !overlapsPure b.start b.«end» t.1 t.2.1))).sum

/-! ### Concrete inputs for counterexamples and witnesses -/

/-- An aware UTC instant in January 2025. -/
def mkUtc (day hour minute : Nat) : PyDateTime :=
  ⟨daysFromCivil 2025 1 day * 86400 + hour * 3600 + minute * 60, 0, true⟩

/-- Scoring-window start used by the harness defaults. -/
def winStart : String := "2025-01-20T00:00:00Z"

/-- Scoring-window end used by the harness defaults. -/
def winEnd : String := "2025-01-24T23:59:59Z"

/-- A fixed md5 oracle (the digest text is never inspected downstream). -/
def md5c : String → String := fun _ => "0123456789abcdef0123456789abcdef"

/-- Calendar text whose single event carries a timezone-qualified
`DTSTART;TZID=...` parameter (C2's failing input). -/
def c2ical : String :=
  "BEGIN:VCALENDAR\nBEGIN:VEVENT\nSUMMARY:Planning\nDTSTART;TZID=America/Chicago:20250120T030000\nDTEND;TZID=America/Chicago:20250120T040000\nEND:VEVENT\nEND:VCALENDAR"

/-- A clean one-event fixture (C3's failing input, with `seed2Stream`). -/
def c3clean : String :=
  "BEGIN:VCALENDAR\nVERSION:2.0\nBEGIN:VEVENT\nSUMMARY:Standup\nDTSTART:20250120T090000Z\nDTEND:20250120T093000Z\nEND:VEVENT\nEND:VCALENDAR"

/-- The method-level draw sequence CPython's `random.Random(2)` produces for
one event of `_noisify_event`: eight `randint` results, the `random()`
convert draw `0.2515…` (< 0.3, so the timezone rewrite fires) with choice
index 1 (America/Chicago), the description/location/organizer `random()`
draws, the organizer choice index, the attendee count and choices, and the
VALARM draw and trigger choice.  The `random()` values are the exact dyadic
rationals returned by the Mersenne Twister. -/
def seed2Stream : RStream :=
  [.dint 7412, .dint 2, .dint 2, .dint 13, .dint 53, .dint 10, .dint 47, .dint 2,
   .dreal (70814402831333 / 281474976710656), .dint 1,
   .dreal (5465584123025297 / 9007199254740992),
   .dreal (5235020389783705 / 9007199254740992),
   .dreal (178323258865353 / 1125899906842624), .dint 6,
   .dint 3, .dint 6, .dint 2, .dint 5, .dint 2, .dint 7, .dint 2,
   .dreal (2416097808274999 / 9007199254740992), .dint 0]

/-- C4 failing input: one proposed block. -/
def c4blocks : List ScheduledBlock := [⟨"Focus", mkUtc 20 10 0, mkUtc 20 11 0⟩]

/-- C4 failing input: a `time_window` custom rule lacking `start_hour`. -/
def c4constraints : Constraints :=
  { custom_rules := some [{ type := some "time_window", end_hour := some 17 }] }

/-- C5 input: one block 00:00–01:00. -/
def c5blocks : List ScheduledBlock := [⟨"B1", mkUtc 20 0 0, mkUtc 20 1 0⟩]

/-- C5 input: an event overlapping the block and an adjacent event with a
zero gap. -/
def c5existing : List ExistingEvent :=
  [⟨"E1", mkUtc 20 0 30, mkUtc 20 1 30⟩, ⟨"E2", mkUtc 20 1 0, mkUtc 20 1 15⟩]

/-- C6 witness input: a block conflicting with one existing event. -/
def w6blocks : List ScheduledBlock := [⟨"Focus", mkUtc 20 9 0, mkUtc 20 10 30⟩]

/-- C6 witness input: the existing event. -/
def w6existing : List ExistingEvent := [⟨"Meeting", mkUtc 20 10 0, mkUtc 20 11 0⟩]

/-- C6 witness input: constraints. -/
def w6constraints : Constraints := { required_block_count := some 1 }

/-- C6 witness: the breakdown `score_scenario` returns on the above. -/
def w6result : ScoreBreakdown :=
  { correctness := 0, completeness := 1, constraint_adherence := 1,
    total_blocks := 1, required_blocks := 1, conflict_count := 1,
    constraint_violations :=
      ["CONFLICT: 'Focus' (Mon 09:00-10:30) overlaps 'Meeting' (Mon 10:00-11:00)"] }

/-- C8 witness input: event lines carrying a recurrence rule. -/
def w8lines : List String :=
  ["BEGIN:VEVENT", "SUMMARY:Weekly Sync", "DTSTART:20250120T150000Z",
   "DTEND:20250120T153000Z", "RRULE:FREQ=WEEKLY;BYDAY=MO", "END:VEVENT"]

/-- C9 witness: the parsed field dict of an event whose `RRULE` is
malformed. -/
def c9cur : List (String × String) :=
  [("RRULE", "NOT-A-RULE"), ("DTEND", "20250120T100000Z"),
   ("DTSTART", "20250120T090000Z"), ("SUMMARY", "Weekly")]

/-- C9 witness: the remaining calendar lines after the malformed event. -/
def c9rest : List String :=
  ["BEGIN:VEVENT", "SUMMARY:Next", "DTSTART:20250121T090000Z",
   "DTEND:20250121T100000Z", "END:VEVENT", "END:VCALENDAR"]

/-- C10 witness input: a block conflicting with one existing event. -/
def w10blocks : List ScheduledBlock := [⟨"Deep Work", mkUtc 21 9 0, mkUtc 21 10 30⟩]

/-- C10 witness input: the existing event. -/
def w10existing : List ExistingEvent := [⟨"Standup", mkUtc 21 10 0, mkUtc 21 11 0⟩]

/-- C10 witness: the breakdown `score_scenario` returns on the above with an
empty constraints dict. -/
def w10result : ScoreBreakdown :=
  { correctness := 0, completeness := 1, constraint_adherence := 1,
    total_blocks := 1, required_blocks := 0, conflict_count := 1,
    constraint_violations :=
      ["CONFLICT: 'Deep Work' (Tue 09:00-10:30) overlaps 'Standup' (Tue 10:00-11:00)"] }

/-! ## Helper lemmas -/

section RatComputation

/- Batteries seals the `Rat` field operations behind `@[irreducible]`; the
concrete evaluations below restore reducibility locally so that `decide`
can run them. -/
attribute [local semireducible] Rat.mul Rat.add Rat.sub Rat.inv Rat.ofScientific

theorem bind_ok {α β : Type} {x : Except String α} {f : α → Except String β} {b : β}
    (h : x >>= f = .ok b) : ∃ a, x = .ok a ∧ f a = .ok b := by
  cases x with
  | error e => simp [Bind.bind, Except.bind] at h
  | ok a => exact ⟨a, rfl, by simpa [Bind.bind, Except.bind] using h⟩

theorem ltE_ok {a b : PyDateTime} {v : Bool} (h : PyDateTime.ltE a b = .ok v) :
    v = decide (a.secs < b.secs) := by
  unfold PyDateTime.ltE at h
  split at h
  · injection h with h'; exact h'.symm
  · exact absurd h (by simp)

theorem overlapsE_ok {aS aE bS bE : PyDateTime} {v : Bool}
    (h : overlapsE aS aE bS bE = .ok v) : v = overlapsPure aS aE bS bE := by
  unfold overlapsE at h
  rcases bind_ok h with ⟨l, hl, h2⟩
  rw [ltE_ok hl] at h2
  by_cases hlt : aS.secs < bE.secs
  · rw [if_pos (by simpa using hlt)] at h2
    rw [ltE_ok h2]
    simp [overlapsPure, hlt]
  · rw [if_neg (by simpa using hlt)] at h2
    injection h2 with h2'
    simp [← h2', overlapsPure, hlt]

theorem conflictEvents_ok {b : ScheduledBlock} {es : List ExistingEvent}
    {n : Nat} {ms : List String} (h : conflictEvents b es = .ok (n, ms)) :
    n = es.countP (fun e => overlapsPure b.start b.«end» e.start e.«end») ∧
      ms.length = n := by
  induction es generalizing n ms with
  | nil =>
    unfold conflictEvents at h
    injection h with h'
    injection h' with hn hm
    subst hn; subst hm
    simp
  | cons e rest ih =>
    unfold conflictEvents at h
    rcases bind_ok h with ⟨o, ho, h2⟩
    rcases bind_ok h2 with ⟨⟨n', ms'⟩, hrest, h3⟩
    obtain ⟨ihn, ihl⟩ := ih hrest
    rw [overlapsE_ok ho] at h3
    by_cases hov : overlapsPure b.start b.«end» e.start e.«end» = true
    · rw [hov] at h3
      simp only [if_true] at h3
      injection h3 with h3'
      injection h3' with hn hm
      constructor
      · rw [← hn, ihn, List.countP_cons]
        simp [hov]
      · rw [← hm, ← hn]
        simp [ihl]
    · rw [Bool.not_eq_true] at hov
      rw [hov] at h3
      simp only [Bool.false_eq_true, if_false] at h3
      injection h3 with h3'
      injection h3' with hn hm
      constructor
      · rw [← hn, ihn, List.countP_cons]
        simp [hov]
      · rw [← hm, ← hn]
        exact ihl

theorem conflictSection_ok {existing : List ExistingEvent} {bs : List ScheduledBlock}
    {n : Nat} {ms : List String} (h : conflictSection existing bs = .ok (n, ms)) :
    n = conflictPairs bs existing ∧ ms.length = n := by
  induction bs generalizing n ms with
  | nil =>
    unfold conflictSection at h
    injection h with h'
    injection h' with hn hm
    subst hn; subst hm
    simp [conflictPairs]
  | cons b rest ih =>
    unfold conflictSection at h
    rcases bind_ok h with ⟨⟨nb, msb⟩, hb, h2⟩
    rcases bind_ok h2 with ⟨⟨nr, msr⟩, hr, h3⟩
    injection h3 with h3'
    injection h3' with hn hm
    obtain ⟨hb1, hb2⟩ := conflictEvents_ok hb
    obtain ⟨hr1, hr2⟩ := ih hr
    constructor
    · rw [← hn, hb1, hr1]
      simp [conflictPairs]
    · rw [← hm, ← hn]
      simp [hb2, hr2]

/-! ## Claim theorems -/

/-- Claim C1: for every `ScoreBreakdown`, `composite_score` equals
`100 × (0.40·correctness + 0.25·completeness + 0.20·constraint_adherence)`,
plus `100 × 0.15·constraint_adherence` added only when correctness and
completeness both equal exactly 1.0, rounded to one decimal place; and it
equals exactly 100.0 at correctness = completeness = constraint_adherence
= 1.0. -/
theorem C1_composite_formula (s : ScoreBreakdown) :
    s.composite_score =
      pyRound1 (100 * (0.40 * s.correctness + 0.25 * s.completeness +
          0.20 * s.constraint_adherence) +
        (if s.correctness = 1 ∧ s.completeness = 1
          then 100 * (0.15 * s.constraint_adherence) else 0)) ∧
    ScoreBreakdown.composite_score
      { correctness := 1, completeness := 1, constraint_adherence := 1 } = 100 := by
  constructor
  · simp only [ScoreBreakdown.composite_score]
    by_cases hc : s.correctness = 1 ∧ s.completeness = 1
    · rw [if_pos hc, if_pos hc]
      congr 1
      ring
    · rw [if_neg hc, if_neg hc]
      congr 1
      ring
  · decide

/-- Claim C2 (code bug): `expand_recurring_for_scoring` strips the
`;TZID=...` parameter from a `DTSTART`/`DTEND` key but does not resolve the
declared timezone: the local wall-clock value parses as a naive datetime,
and the aware-vs-naive window comparison raises `TypeError` instead of
producing a UTC-anchored occurrence. -/
theorem C2_tzid_dropped_not_resolved :
    expand_recurring_for_scoring failingRRuleOracle c2ical winStart winEnd =
      .error "TypeError: can't compare offset-naive and offset-aware datetimes" := by
  decide

set_option maxRecDepth 4000 in
/-- Claim C3 (code bug): the clean fixture normalizes to one `Standup`
occurrence, but re-running the normalizer over the noise synthesizer's
output for the draw stream of `random.Random(2)` — under which the single
event is rewritten to `DTSTART;TZID=America/Chicago:...` — raises
`TypeError` instead of recovering the same (title, start, end) multiset. -/
theorem C3_roundtrip_broken_by_tz_rewrite :
    expand_recurring_for_scoring failingRRuleOracle c3clean winStart winEnd =
      .ok [{ title := "Standup", start := ⟨1737363600, 0, true⟩,
             «end» := ⟨1737365400, 0, true⟩ }] ∧
    (addRealisticNoiseWith md5c c3clean seed2Stream).bind
      (fun noisy => expand_recurring_for_scoring failingRRuleOracle noisy winStart winEnd) =
      .error "TypeError: can't compare offset-naive and offset-aware datetimes" := by
  exact ⟨by decide, by decide⟩

/-- Claim C4 (code bug): a `time_window` custom rule lacking `start_hour`
makes the whole `score_scenario` call fail with `KeyError` instead of being
treated as not applicable. -/
theorem C4_missing_rule_field_keyerror :
    score_scenario c4blocks [] c4constraints = .error "KeyError: start_hour" := by
  decide

/-- Claim C5 counterexample: with one block and one interval overlapping it
(plus one zero-gap interval), the buffer rule performs 2 checks, while the
claim's counting — one check per non-overlapping non-self pair — yields 1:
the overlapping pair does contribute a check. -/
theorem C5_counterexample_overlapping_pair_counted :
    (bufferBlocks 15 (allIntervals c5blocks c5existing) c5blocks).map (fun t => t.1) =
      .ok 2 ∧
    claimBufferCheckCount c5blocks (allIntervals c5blocks c5existing) = 1 ∧
    (2 : Nat) ≠ 1 := by
  exact ⟨by decide, by decide, by decide⟩

/-- Claim C7: the noise synthesizer's output is byte-identical across runs
with the same fixture and seed, whatever the ambient wall-clock time, call
count and global-generator state — it depends only on its two explicit
inputs (and the process's PRNG and md5 libraries). -/
theorem C7_noise_seed_determinism (lib : Int → RStream) (md5 : String → String)
    (w1 w2 : Int) (c1 c2 : Nat) (g1 g2 : RStream) (ical : String) (seed : Int) :
    add_realistic_noise ⟨w1, c1, g1, lib, md5⟩ ical seed =
      add_realistic_noise ⟨w2, c2, g2, lib, md5⟩ ical seed := rfl

theorem whSection_none (bs : List ScheduledBlock) :
    workingHoursSection none bs = .ok (0, 0, []) := by
  cases bs <;> rfl

theorem durSection_none (bs : List ScheduledBlock) :
    durationSection none none bs = .ok (0, 0, []) := by
  induction bs with
  | nil => rfl
  | cons b rest ih =>
    simp [durationSection, durBlock, ih, Bind.bind, Except.bind, Pure.pure, Except.pure]

theorem dateRange_inactive {rs? re? : Option String} (bs : List ScheduledBlock)
    (h : (truthyS rs? && truthyS re?) = false) :
    dateRangeSection rs? re? bs = .ok (0, 0, []) := by
  simp [dateRangeSection, h]

/-- Claim C6: `score_scenario` yields correctness exactly 0 on an empty
block list regardless of `required_block_count`, and otherwise
`max 0 (1 − conflicts / |blocks|)`, where conflicts counts every
overlapping (block, existing-event) pair with no per-block deduplication
(also recorded in `conflict_count`). -/
theorem C6_correctness_formula (blocks : List ScheduledBlock)
    (existing : List ExistingEvent) (constraints : Constraints) (r : ScoreBreakdown)
    (h : score_scenario blocks existing constraints = .ok r) :
    r.conflict_count = conflictPairs blocks existing ∧
    r.correctness = (if blocks.isEmpty then (0 : ℚ)
      else max 0 (1 - (conflictPairs blocks existing : ℚ) / (blocks.length : ℚ))) := by
  simp only [score_scenario] at h
  rcases bind_ok h with ⟨⟨n, cms⟩, hc, h⟩
  rcases bind_ok h with ⟨⟨c1, v1, m1⟩, h1, h⟩
  rcases bind_ok h with ⟨⟨c2, v2, m2⟩, h2, h⟩
  rcases bind_ok h with ⟨⟨c3, v3, m3⟩, h3, h⟩
  rcases bind_ok h with ⟨⟨c4, v4, m4⟩, h4, h⟩
  injection h with h'
  subst h'
  obtain ⟨hn, -⟩ := conflictSection_ok hc
  subst hn
  refine ⟨rfl, ?_⟩
  cases blocks with
  | nil => simp
  | cons b bs => simp

/-- Witness for C6 at a concrete conflicting input. -/
theorem C6_correctness_formula_witness :
    score_scenario w6blocks w6existing w6constraints = .ok w6result ∧
    (w6result.conflict_count = conflictPairs w6blocks w6existing ∧
      w6result.correctness = (if w6blocks.isEmpty then (0 : ℚ)
        else max 0 (1 - (conflictPairs w6blocks w6existing : ℚ) / (w6blocks.length : ℚ)))) :=
  ⟨by decide, C6_correctness_formula w6blocks w6existing w6constraints w6result (by decide)⟩

/-- Claim C10: overlap conflicts append `CONFLICT:` messages to
`constraint_violations` but never touch the adherence counters: with no
active constraint option, `constraint_adherence` is exactly 1 while the
violation list is non-empty whenever `conflict_count > 0`. -/
theorem C10_conflicts_bypass_adherence (blocks : List ScheduledBlock)
    (existing : List ExistingEvent) (c : Constraints) (r : ScoreBreakdown)
    (hwh : c.working_hours = none) (hmin : c.min_duration_minutes = none)
    (hmax : c.max_duration_minutes = none)
    (hdr : (truthyS c.date_range_start && truthyS c.date_range_end) = false)
    (hcr : c.custom_rules.getD [] = [])
    (h : score_scenario blocks existing c = .ok r) :
    r.constraint_adherence = 1 ∧ (0 < r.conflict_count → r.constraint_violations ≠ []) := by
  simp only [score_scenario, hwh, hmin, hmax, hcr, whSection_none, durSection_none,
    dateRange_inactive _ hdr, customSection] at h
  rcases bind_ok h with ⟨⟨n, cms⟩, hc, h⟩
  simp only [Bind.bind, Except.bind] at h
  injection h with h'
  subst h'
  obtain ⟨-, hlen⟩ := conflictSection_ok hc
  refine ⟨by simp, ?_⟩
  dsimp only
  simp only [List.append_nil]
  intro hpos hnil
  rw [hnil] at hlen
  simp at hlen
  omega

theorem leE_aware {a b : PyDateTime} (h : a.aware = b.aware) :
    PyDateTime.leE a b = .ok (a.secs ≤ b.secs) := by
  simp [PyDateTime.leE, h]

theorem subE_aware {a b : PyDateTime} (h : a.aware = b.aware) :
    PyDateTime.subE a b = .ok (a.secs - b.secs) := by
  simp [PyDateTime.subE, h]

theorem bufferEvents_counts (v : Int) (b : ScheduledBlock)
    (evs : List (PyDateTime × PyDateTime × String))
    (hb : b.start.aware = true) (hbe : b.«end».aware = true)
    (he : ∀ t ∈ evs, t.1.aware = true ∧ t.2.1.aware = true) :
    (bufferEvents v b evs).map (fun t => (t.1, t.2.1)) =
      .ok (evs.countP (fun t => !isSelfMatch b t), evs.countP (bufferFails v b)) := by
  induction evs with
  | nil => rfl
  | cons t rest ih =>
    obtain ⟨es, ee, et⟩ := t
    have hh := he (es, ee, et) (List.mem_cons_self _ _)
    have hrmem : ∀ t ∈ rest, t.1.aware = true ∧ t.2.1.aware = true :=
      fun t' ht' => he t' (List.mem_cons_of_mem _ ht')
    have ihr := ih hrmem
    by_cases hself : (PyDateTime.eqPy es b.start && PyDateTime.eqPy ee b.«end») = true
    · have hs : isSelfMatch b (es, ee, et) = true := by
        simpa [isSelfMatch] using hself
      unfold bufferEvents
      rw [if_pos hself, ihr]
      simp [List.countP_cons, hs, bufferFails]
    · have hs : isSelfMatch b (es, ee, et) = false := by
        simpa [isSelfMatch] using hself
      have hl1 : PyDateTime.leE b.«end» es = .ok (decide (b.«end».secs ≤ es.secs)) :=
        leE_aware (by rw [hbe, hh.1])
      have hl2 : PyDateTime.leE ee b.start = .ok (decide (ee.secs ≤ b.start.secs)) :=
        leE_aware (by rw [hb, hh.2])
      have hsub1 : PyDateTime.subE es b.«end» = .ok (es.secs - b.«end».secs) :=
        subE_aware (by rw [hbe, hh.1])
      have hsub2 : PyDateTime.subE b.start ee = .ok (b.start.secs - ee.secs) :=
        subE_aware (by rw [hb, hh.2])
      cases hrest : bufferEvents v b rest with
      | error err =>
        rw [hrest] at ihr
        simp [Except.map] at ihr
      | ok trip =>
        obtain ⟨cR, vR, msR⟩ := trip
        rw [hrest] at ihr
        simp only [Except.map, Except.ok.injEq, Prod.mk.injEq] at ihr
        obtain ⟨ihc, ihv⟩ := ihr
        unfold bufferEvents
        rw [if_neg hself]
        by_cases h1 : b.«end».secs ≤ es.secs
        · by_cases h2 : es.secs - b.«end».secs < v * 60
          · have hf : bufferFails v b (es, ee, et) = true := by
              simp only [bufferFails, hs, Bool.not_false, Bool.true_and, overlapsPure,
                specGap, if_pos h1]
              simp [h1, h2] <;> omega
            simp [hl1, hsub1, hrest, h1, h2, Bind.bind, Except.bind, Pure.pure,
              Except.pure, Except.map, List.countP_cons, hs, hf, ihc, ihv] <;> omega
          · have hf : bufferFails v b (es, ee, et) = false := by
              simp only [bufferFails, hs, Bool.not_false, Bool.true_and, overlapsPure,
                specGap, if_pos h1]
              simp [h2]
            simp [hl1, hsub1, hrest, h1, h2, Bind.bind, Except.bind, Pure.pure,
              Except.pure, Except.map, List.countP_cons, hs, hf, ihc, ihv] <;> omega
        · by_cases h2 : ee.secs ≤ b.start.secs
          · by_cases h3 : b.start.secs - ee.secs < v * 60
            · have hf : bufferFails v b (es, ee, et) = true := by
                simp only [bufferFails, hs, Bool.not_false, Bool.true_and, overlapsPure,
                  specGap, if_neg h1]
                simp [h2, h3] <;> omega
              simp [hl1, hl2, hsub2, hrest, h1, h2, h3, Bind.bind, Except.bind,
                Pure.pure, Except.pure, Except.map, List.countP_cons, hs, hf, ihc, ihv] <;> omega
            · have hf : bufferFails v b (es, ee, et) = false := by
                simp only [bufferFails, hs, Bool.not_false, Bool.true_and, overlapsPure,
                  specGap, if_neg h1]
                simp [h3]
              simp [hl1, hl2, hsub2, hrest, h1, h2, h3, Bind.bind, Except.bind,
                Pure.pure, Except.pure, Except.map, List.countP_cons, hs, hf, ihc, ihv] <;> omega
          · have hf : bufferFails v b (es, ee, et) = false := by
              simp only [bufferFails, hs, Bool.not_false, Bool.true_and, overlapsPure]
              simp <;> omega
            simp [hl1, hl2, hrest, h1, h2, Bind.bind, Except.bind, Pure.pure,
              Except.pure, Except.map, List.countP_cons, hs, hf, ihc, ihv] <;> omega

theorem bufferBlocks_counts (v : Int) (allE : List (PyDateTime × PyDateTime × String))
    (blocks : List ScheduledBlock)
    (hb : ∀ b ∈ blocks, b.start.aware = true ∧ b.«end».aware = true)
    (he : ∀ t ∈ allE, t.1.aware = true ∧ t.2.1.aware = true) :
    (bufferBlocks v allE blocks).map (fun t => (t.1, t.2.1)) =
      .ok (bufferCheckCount blocks allE, bufferViolationCount v blocks allE) := by
  induction blocks with
  | nil => rfl
  | cons b rest ih =>
    have hbb := hb b (List.mem_cons_self _ _)
    have hbr : ∀ b' ∈ rest, b'.start.aware = true ∧ b'.«end».aware = true :=
      fun b' hb' => hb b' (List.mem_cons_of_mem _ hb')
    have h1 := bufferEvents_counts v b allE hbb.1 hbb.2 he
    have h2 := ih hbr
    cases he1 : bufferEvents v b allE with
    | error err => rw [he1] at h1; simp [Except.map] at h1
    | ok t1 =>
      obtain ⟨c1, v1, m1⟩ := t1
      rw [he1] at h1
      simp only [Except.map, Except.ok.injEq, Prod.mk.injEq] at h1
      cases he2 : bufferBlocks v allE rest with
      | error err => rw [he2] at h2; simp [Except.map] at h2
      | ok t2 =>
        obtain ⟨c2, v2, m2⟩ := t2
        rw [he2] at h2
        simp only [Except.map, Except.ok.injEq, Prod.mk.injEq] at h2
        unfold bufferBlocks
        simp only [he1, he2, Bind.bind, Except.bind, Except.map, Except.ok.injEq,
          Prod.mk.injEq]
        constructor
        · simp [bufferCheckCount, h1.1, h2.1]
        · simp [bufferViolationCount, h1.2, h2.2]

/-- Claim C5 (amended): in the `min_buffer_minutes` rule, the check counter
is incremented exactly once per (block, other-interval) pair over
proposed-plus-existing intervals excluding exact self matches — regardless
of overlap (an overlapping pair contributes a check that can never fail) —
and the violation counter counts the non-overlapping pairs whose gap to the
nearer boundary is under the rule's value in minutes. -/
theorem C5_amended_buffer_counts (v : Int) (blocks : List ScheduledBlock)
    (existing : List ExistingEvent)
    (hb : (blocks.all fun b => b.start.aware && b.«end».aware) = true)
    (he : (existing.all fun e => e.start.aware && e.«end».aware) = true) :
    (bufferBlocks v (allIntervals blocks existing) blocks).map (fun t => (t.1, t.2.1)) =
      .ok (bufferCheckCount blocks (allIntervals blocks existing),
        bufferViolationCount v blocks (allIntervals blocks existing)) := by
  apply bufferBlocks_counts
  · intro b hbm
    have := List.all_eq_true.mp hb b hbm
    simpa using this
  · intro t htm
    rcases List.mem_append.mp htm with hmem | hmem
    · obtain ⟨e, hem, rfl⟩ := List.mem_map.mp hmem
      have := List.all_eq_true.mp he e hem
      simpa using this
    · obtain ⟨b, hbm, rfl⟩ := List.mem_map.mp hmem
      have := List.all_eq_true.mp hb b hbm
      simpa using this

/-- Witness for the amended C5 at the concrete counterexample input
(2 checks, 1 violation). -/
theorem C5_amended_buffer_counts_witness :
    ((c5blocks.all fun b => b.start.aware && b.«end».aware) = true) ∧
    ((c5existing.all fun e => e.start.aware && e.«end».aware) = true) ∧
    (bufferBlocks 15 (allIntervals c5blocks c5existing) c5blocks).map (fun t => (t.1, t.2.1)) =
      .ok (bufferCheckCount c5blocks (allIntervals c5blocks c5existing),
        bufferViolationCount 15 c5blocks (allIntervals c5blocks c5existing)) ∧
    bufferCheckCount c5blocks (allIntervals c5blocks c5existing) = 2 ∧
    bufferViolationCount 15 c5blocks (allIntervals c5blocks c5existing) = 1 :=
  ⟨by decide, by decide, C5_amended_buffer_counts 15 c5blocks c5existing (by decide) (by decide),
    by decide, by decide⟩

theorem processEventLines_rrule (tz? : Option String) (lines used : List String) :
    processEventLines tz? true lines used = .ok (lines.filter notMarker, used) := by
  induction lines with
  | nil => rfl
  | cons l rest ih =>
    cases tz? with
    | none =>
      by_cases hm : notMarker l = true <;>
        simp [processEventLines, hm, ih, Except.map, List.filter_cons]
    | some tz =>
      by_cases hm : notMarker l = true <;>
        simp [processEventLines, hm, ih, Except.map, List.filter_cons]

/-- Claim C8: for every draw stream (hence every seed) and every event that
carries a recurrence rule, `_noisify_event` passes the original event lines
through unchanged — no `DTSTART`/`DTEND` line is rewritten into a
timezone-qualified local representation — and records no timezone; the
noise is confined to a prefix and a suffix around the untouched lines. -/
theorem C8_rrule_never_rewritten (md5 : String → String) (eventLines : List String)
    (idx : Nat) (s : RStream) (used : List String)
    (h : eventLines.any (fun l => strHasSub l "RRULE:") = true) :
    ∃ header extras s',
      noisifyEvent md5 eventLines idx s used =
        .ok (["BEGIN:VEVENT"] ++ header ++ eventLines.filter notMarker ++ extras ++
          ["END:VEVENT"], s', used) := by
  simp only [noisifyEvent, h, processEventLines_rrule, Bind.bind, Except.bind]
  exact ⟨_, _, _, rfl⟩

/-- Witness for C8 at a concrete recurring event and draw stream. -/
theorem C8_rrule_never_rewritten_witness :
    (w8lines.any (fun l => strHasSub l "RRULE:") = true) ∧
    (∃ header extras s',
      noisifyEvent md5c w8lines 0 seed2Stream [] =
        .ok (["BEGIN:VEVENT"] ++ header ++ w8lines.filter notMarker ++ extras ++
          ["END:VEVENT"], s', [])) :=
  ⟨by decide, C8_rrule_never_rewritten md5c w8lines 0 seed2Stream [] (by decide)⟩

theorem windowTest_aware {rs re_ s e : PyDateTime} (hrs : rs.aware = true)
    (hre : re_.aware = true) (hs : s.aware = true) (he : e.aware = true) :
    windowTest rs re_ s e =
      .ok (decide ((rs.secs ≤ s.secs ∧ s.secs ≤ re_.secs) ∨
        (rs.secs ≤ e.secs ∧ e.secs ≤ re_.secs))) := by
  unfold windowTest
  rw [leE_aware (by rw [hrs, hs]), leE_aware (by rw [hrs, he])]
  by_cases h1 : rs.secs ≤ s.secs <;> by_cases h2 : s.secs ≤ re_.secs <;>
    by_cases h3 : rs.secs ≤ e.secs <;> by_cases h4 : e.secs ≤ re_.secs <;>
    simp [h1, h2, h3, h4, leE_aware, hrs, hre, hs, he, Bind.bind, Except.bind,
      Pure.pure, Except.pure]

/-- Claim C9: when an event's recurrence rule fails to parse (the oracle
raises), completing that event does not abort the surrounding parse: the
unexpanded base event is emitted as a single occurrence subject to the
window test, and the loop continues over the remaining lines unchanged. -/
theorem C9_malformed_rrule_fallback (oracle : RRuleOracle) (rs re_ : PyDateTime)
    (cur : List (String × String)) (rest : List String) (start e : PyDateTime)
    (hsp : parse_iso (dictGetD cur "DTSTART" "") = .ok start)
    (hep : parse_iso (dictGetD cur "DTEND" "") = .ok e)
    (hsa : start.aware = true) (hea : e.aware = true)
    (hrsa : rs.aware = true) (hrea : re_.aware = true)
    (hrr : dictGetD cur "RRULE" "" ≠ "")
    (hfail : oracle ("RRULE:" ++ dictGetD cur "RRULE" "") start.stripTz.secs
      rs.stripTz.secs re_.stripTz.secs = none) :
    expandLoop oracle rs re_ ("END:VEVENT" :: rest) cur =
      (expandLoop oracle rs re_ rest cur).map
        (fun evs =>
          (if (rs.secs ≤ start.secs ∧ start.secs ≤ re_.secs) ∨
              (rs.secs ≤ e.secs ∧ e.secs ≤ re_.secs)
           then [{ title := dictGetD cur "SUMMARY" "Untitled", start := start, «end» := e }]
           else []) ++ evs) := by
  have hfin : finishEvent oracle rs re_ cur =
      .ok (if (rs.secs ≤ start.secs ∧ start.secs ≤ re_.secs) ∨
              (rs.secs ≤ e.secs ∧ e.secs ≤ re_.secs)
           then [{ title := dictGetD cur "SUMMARY" "Untitled", start := start, «end» := e }]
           else []) := by
    unfold finishEvent
    rw [hsp, hep]
    dsimp only
    rw [subE_aware (by rw [hea, hsa])]
    simp only [Bind.bind, Except.bind]
    rw [if_pos hrr, hfail, windowTest_aware hrsa hrea hsa hea]
    simp only [Bind.bind, Except.bind]
    by_cases hw : (rs.secs ≤ start.secs ∧ start.secs ≤ re_.secs) ∨
        (rs.secs ≤ e.secs ∧ e.secs ≤ re_.secs) <;>
      simp [hw]
  rw [show expandLoop oracle rs re_ ("END:VEVENT" :: rest) cur =
      (do
        let evs ← finishEvent oracle rs re_ cur
        let evs' ← expandLoop oracle rs re_ rest cur
        .ok (evs ++ evs')) from rfl]
  rw [hfin]
  cases hrest : expandLoop oracle rs re_ rest cur <;>
    simp [Bind.bind, Except.bind, Except.map]

/-- Witness for C9: a malformed-rule event followed by a second event; the
fallback occurrence is emitted and the second event still parses. -/
theorem C9_malformed_rrule_fallback_witness :
    (parse_iso (dictGetD c9cur "DTSTART" "") = .ok ⟨1737363600, 0, true⟩) ∧
    (dictGetD c9cur "RRULE" "" ≠ "") ∧
    expandLoop failingRRuleOracle ⟨1737331200, 0, true⟩ ⟨1737763199, 0, true⟩
        ("END:VEVENT" :: c9rest) c9cur =
      (expandLoop failingRRuleOracle ⟨1737331200, 0, true⟩ ⟨1737763199, 0, true⟩
          c9rest c9cur).map
        (fun evs =>
          (if ((1737331200 : Int) ≤ 1737363600 ∧ (1737363600 : Int) ≤ 1737763199) ∨
              ((1737331200 : Int) ≤ 1737367200 ∧ (1737367200 : Int) ≤ 1737763199)
           then [{ title := dictGetD c9cur "SUMMARY" "Untitled",
                   start := ⟨1737363600, 0, true⟩, «end» := ⟨1737367200, 0, true⟩ }]
           else []) ++ evs) ∧
    expandLoop failingRRuleOracle ⟨1737331200, 0, true⟩ ⟨1737763199, 0, true⟩
        ("END:VEVENT" :: c9rest) c9cur =
      .ok [{ title := "Weekly", start := ⟨1737363600, 0, true⟩,
             «end» := ⟨1737367200, 0, true⟩ },
           { title := "Next", start := ⟨1737450000, 0, true⟩,
             «end» := ⟨1737453600, 0, true⟩ }] :=
  ⟨by decide, by decide,
    C9_malformed_rrule_fallback failingRRuleOracle ⟨1737331200, 0, true⟩
      ⟨1737763199, 0, true⟩ c9cur c9rest ⟨1737363600, 0, true⟩ ⟨1737367200, 0, true⟩
      (by decide) (by decide) rfl rfl rfl rfl (by decide) rfl,
    by decide⟩

/-- Witness for C10 at a concrete conflicting input with an empty
constraints dict. -/
theorem C10_conflicts_bypass_adherence_witness :
    score_scenario w10blocks w10existing {} = .ok w10result ∧
    (w10result.constraint_adherence = 1 ∧
      (0 < w10result.conflict_count → w10result.constraint_violations ≠ [])) :=
  ⟨by decide, C10_conflicts_bypass_adherence w10blocks w10existing {} w10result
    rfl rfl rfl rfl rfl (by decide)⟩

end RatComputation

end Tempo
